import Mathlib

/-!
# Renamer: Role Configuration & Authorization Subsystem

A shallow embedding of `src/commands.rs` of the `renamer` Discord bot.

Modelling conventions:
* `u64` guild ids are `Nat` (claims about the 8-byte key encoding carry an
  explicit `< 2 ^ 64` bound where it matters).
* A `sled::Db` is an abstract key-value map `List Nat → Option String`
  (key: the raw byte list; value: the stored UTF-8 text — `as_bytes` /
  `String::from_utf8` round-trip losslessly, so we store the text itself).
  `sled::Db::insert` returns the previously stored value.
* `to_ne_bytes` is modelled as little-endian (the native byte order of the
  x86-64 deployment target), 8 bytes.
* External effects (replies sent, nickname edits, member searches) are
  returned explicitly; the external world (live role list, role-membership
  facts, member search results) is passed in explicitly.
* `role_by_name!` calls `.unwrap()` on the result of fetching the guild's
  role list, so a failed fetch aborts the process; `PanicOr` makes that
  outcome explicit.
-/

/-- The `AppRole` enum of `commands.rs` (`Renamer` and `Allow`). -/
inductive AppRole
  | Renamer
  | Allow
deriving DecidableEq, Repr

/-- The `strum` `Display` derive: each variant prints as its own name. -/
def AppRole.display : AppRole → String
  | .Renamer => "Renamer"
  | .Allow => "Allow"

/-- Abstract model of one `sled::Db`: a map from key bytes to stored text. -/
def SledMap := List Nat → Option String

/-- `sled::Db::get`. -/
def SledMap.get (t : SledMap) (k : List Nat) : Option String := t k

/-- `sled::Db::insert`: stores `v` at `k` and returns the previous value. -/
def SledMap.insert (t : SledMap) (k : List Nat) (v : String) : Option String × SledMap :=
  (t k, fun k2 => if k2 = k then some v else t k2)

/-- `u64::to_ne_bytes` on the deployment target: 8 little-endian bytes. -/
def u64ToNeBytes (n : Nat) : List Nat :=
  [n % 256, n / 256 % 256, n / 65536 % 256, n / 16777216 % 256,
   n / 4294967296 % 256, n / 1099511627776 % 256,
   n / 281474976710656 % 256, n / 72057594037927936 % 256]

/-- Recompose a little-endian byte list into a number (proof device for
injectivity of `u64ToNeBytes`). -/
def bytesToNat : List Nat → Nat
  | [] => 0
  | b :: bs => b + 256 * bytesToNat bs

/-- The `RoleDb` struct: two independent sled trees, one per `AppRole`. -/
structure RoleDb where
  renamer_roles : SledMap
  allow_roles : SledMap

/-- `RoleDb::get_db`: selects the partition for an `AppRole`. -/
def RoleDb.get_db (db : RoleDb) (app_role : AppRole) : SledMap :=
  match app_role with
  | .Renamer => db.renamer_roles
  | .Allow => db.allow_roles

/-- Writes back the partition selected by `get_db` (the Rust code mutates the
selected `sled::Db` in place; here the update is explicit). -/
def RoleDb.set_db (db : RoleDb) (app_role : AppRole) (t : SledMap) : RoleDb :=
  match app_role with
  | .Renamer => { db with renamer_roles := t }
  | .Allow => { db with allow_roles := t }

/-- `RoleDb::get`: looks up the role name stored for `(app_role, key)`,
keyed by `key.0.to_ne_bytes()`. -/
def RoleDb.get (db : RoleDb) (app_role : AppRole) (key : Nat) : Option String :=
  (db.get_db app_role).get (u64ToNeBytes key)

/-- `RoleDb::insert`: stores `value` for `(app_role, key)` and returns the
previously stored value, keyed by `key.0.to_ne_bytes()`. -/
def RoleDb.insert (db : RoleDb) (app_role : AppRole) (key : Nat) (value : String) :
    Option String × RoleDb :=
  let step := (db.get_db app_role).insert (u64ToNeBytes key) value
  (step.1, db.set_db app_role step.2)

/-- A live guild role (`serenity` `Role`): id, display name, mentionability. -/
structure Role where
  id : Nat
  name : String
  mentionable : Bool
deriving DecidableEq, Repr

/-- The live role list of a guild could not be fetched
(network / permission failure of `GuildId::roles`). -/
inductive DirectoryError
  | fetchFailed
deriving DecidableEq, Repr

/-- Outcome of code that may abort the process via `.unwrap()`. -/
inductive PanicOr (α : Type)
  | panic
  | ok (a : α)
deriving DecidableEq, Repr

/-- The `role_by_name!` macro: fetches the guild's roles and finds the first
role whose name equals `name`. The fetch result is `.unwrap()`ed, so a failed
fetch panics instead of propagating an error. -/
def role_by_name (fetch : Except DirectoryError (List Role)) (name : String) :
    PanicOr (Option Role) :=
  match fetch with
  | .error _ => .panic
  | .ok roles => .ok (roles.find? (fun role => name == role.name))

/-- One reply delivered through `ctx.send`. -/
structure Reply where
  content : String
  ephemeral : Bool
deriving DecidableEq, Repr

/-- The fixed suffix appended to both diagnostic messages of `check_set_up`. -/
def adminHint : String := ". Have an admin set up the app with /renamer admin set_roles."

/-- `check_set_up`: reads the configured role name for `(app_role, guild)`
from the store; if present, resolves it against the live role list. Returns
the resolved role id (if any) together with the replies sent. -/
def check_set_up (db : RoleDb) (app_role : AppRole) (guild : Nat)
    (fetch : Except DirectoryError (List Role)) :
    PanicOr (Option Nat × List Reply) :=
  match db.get app_role guild with
  | some name =>
      match role_by_name fetch name with
      | .panic => .panic
      | .ok (some role) => .ok (some role.id, [])
      | .ok none =>
          .ok (none,
            [⟨app_role.display ++ " role does not exist in this server" ++ adminHint, true⟩])
  | none =>
      .ok (none,
        [⟨app_role.display ++ " role not known for this server" ++ adminHint, true⟩])

/-- Rust `char::is_whitespace`: the Unicode `White_Space` property. -/
def rustIsWhitespace (c : Char) : Bool :=
  let n := c.toNat
  (9 ≤ n && n ≤ 13) || n = 32 || n = 133 || n = 160 || n = 5760 ||
  (8192 ≤ n && n ≤ 8202) || n = 8232 || n = 8233 || n = 8239 || n = 8287 || n = 12288

/-- Rust `str::trim`: strips leading and trailing Unicode whitespace. -/
def rustTrim (s : List Char) : List Char :=
  ((s.dropWhile rustIsWhitespace).reverse.dropWhile rustIsWhitespace).reverse

/-- Number of bytes of the UTF-8 encoding of one character. -/
def utf8CharLen (c : Char) : Nat :=
  if c.toNat < 128 then 1
  else if c.toNat < 2048 then 2
  else if c.toNat < 65536 then 3
  else 4

/-- Rust `str::len`: the UTF-8 byte length. -/
def utf8Len (s : List Char) : Nat := (s.map utf8CharLen).sum

/-- `is_valid_nickname`: rejects iff the trimmed byte length matches
`0 | 33..` (i.e. accepts iff it is between 1 and 32 bytes). -/
def is_valid_nickname (nickname : String) : Bool :=
  let len := utf8Len (rustTrim nickname.data)
  if len = 0 ∨ 33 ≤ len then false else true

/-- A guild member as seen by `search_members` (the fields `rename` uses). -/
structure Member where
  userName : String
deriving DecidableEq, Repr

/-- One nickname edit performed against the external directory. -/
structure Edit where
  target : String
  newNick : String
deriving DecidableEq, Repr

/-- Everything externally observable that one `rename` invocation does. -/
structure RenameOutcome where
  replies : List Reply
  edits : List Edit
  searches : List String
deriving DecidableEq, Repr

/-- The external world a `rename` invocation runs against: the config store,
the guild's live role list, the invoker's role membership (a fresh boolean
fact per role id), and the member-search results of the directory. -/
structure RenameWorld where
  db : RoleDb
  roles : List Role
  hasRole : Nat → Bool
  searchResults : String → List Member

/-- The `rename` command handler: authorization gate, permission check,
nickname validation, target search, and (on a unique match) the edit. -/
def rename (w : RenameWorld) (guild : Nat) (invokerName : String)
    (username nickname : String) : PanicOr RenameOutcome :=
  match check_set_up w.db .Renamer guild (.ok w.roles) with
  | .panic => .panic
  | .ok (none, sent) => .ok ⟨sent, [], []⟩
  | .ok (some renamer_role_id, sent) =>
      if w.hasRole renamer_role_id then
        if is_valid_nickname nickname then
          -- mirrors `match target_members_vec.len() { 0 | 1 | _ }`
          match w.searchResults username with
          | [] =>
              .ok ⟨sent ++ [⟨"Search for \x27" ++ username ++ "\x27 found no users.", true⟩],
                [], [username]⟩
          | [target_member] =>
              .ok ⟨sent ++
                  [⟨invokerName ++ " set " ++ target_member.userName ++ "\x27s nickname to " ++
                    nickname ++ ".", false⟩],
                [⟨target_member.userName, nickname⟩], [username]⟩
          | _ =>
              .ok ⟨sent ++
                  [⟨"Search for \x27" ++ username ++
                    "\x27 found too many users. Specify exactly one user for `username`.", true⟩],
                [], [username]⟩
        else
          .ok ⟨sent ++ [⟨nickname ++ " is not a valid nickname.", true⟩], [], []⟩
      else
        .ok ⟨sent ++ [⟨"You do not have permission to use this command.", true⟩], [], []⟩

/-- The role-reconciliation block of `set_role` (commands.rs lines 287-303):
reuse the live role with the requested name, or create a new, non-mentionable
role with that exact name (its id supplied by the directory as `fresh`).
Returns the message, the resulting role id, and the updated live role list. -/
def ensure_role (roles : List Role) (role_name : String) (fresh : Nat) :
    String × Nat × List Role :=
  match roles.find? (fun role => role_name == role.name) with
  | some role => ("Using existing server role " ++ role_name ++ ".", role.id, roles)
  | none =>
      ("Created new server role " ++ role_name ++ ".", fresh,
        roles ++ [⟨fresh, role_name, false⟩])

/-- Result of one `set_role` call: the composed report, the updated store,
the updated live role list, and the resulting role id. -/
structure SetRoleRes where
  msg : String
  db : RoleDb
  roles : List Role
  role_id : Nat

/-- `set_role`: updates the store (skipping the write when the stored name
already equals the requested one), then reconciles the live role list via
`role_by_name!` semantics (panic on fetch failure, else `ensure_role`). -/
def set_role (app_role : AppRole) (db : RoleDb) (guild : Nat)
    (fetch : Except DirectoryError (List Role)) (role_name : String) (fresh : Nat) :
    PanicOr SetRoleRes :=
  let db_step : String × RoleDb :=
    match db.get app_role guild with
    | some stored_role =>
        if stored_role = role_name then
          (app_role.display ++ " role is already set to " ++ role_name ++ "; no change made.",
            db)
        else
          match db.insert app_role guild role_name with
          | (some previous_role, db2) =>
              (app_role.display ++ " role was changed from " ++ previous_role ++ " to " ++
                role_name ++ ".", db2)
          | (none, db2) =>
              (app_role.display ++ " role was set to " ++ role_name ++ ".", db2)
    | none =>
        match db.insert app_role guild role_name with
        | (some previous_role, db2) =>
            (app_role.display ++ " role was changed from " ++ previous_role ++ " to " ++
              role_name ++ ".", db2)
        | (none, db2) =>
            (app_role.display ++ " role was set to " ++ role_name ++ ".", db2)
  match fetch with
  | .error _ => .panic
  | .ok roles =>
      let e := ensure_role roles role_name fresh
      .ok ⟨db_step.1 ++ "\n" ++ e.1, db_step.2, e.2.2, e.2.1⟩

/-- Projection: the nickname edits performed by a `rename` invocation. -/
def renameEdits (r : PanicOr RenameOutcome) : List Edit :=
  match r with
  | .panic => []
  | .ok o => o.edits

/-- The empty sled map. -/
def emptyMap : SledMap := fun _ => none

/-- A store with no entries at all. -/
def emptyDb : RoleDb := ⟨emptyMap, emptyMap⟩

/-- A live role named `Mods` with id 101. -/
def modsRole : Role := ⟨101, "Mods", false⟩

/-- A store whose `Renamer` entry for guild 5 is `Mods`. -/
def modsDb : RoleDb := (emptyDb.insert .Renamer 5 "Mods").2

/-- Member-search fixture: `bob` matches one member, `many` matches two,
anything else matches none. -/
def searchFixture : String → List Member :=
  fun q => if q = "bob" then [⟨"Bob"⟩] else if q = "many" then [⟨"Alice"⟩, ⟨"Bob"⟩] else []

/-- World in which the invoker holds no role at all. -/
def permWorld : RenameWorld := ⟨modsDb, [modsRole], fun _ => false, searchFixture⟩

/-- World in which the invoker holds exactly the configured `Mods` role. -/
def okWorld : RenameWorld := ⟨modsDb, [modsRole], fun rid => rid == 101, searchFixture⟩

/-- Decomposing the little-endian key encoding recovers the id modulo `2^64`. -/
theorem u64ToNeBytes_roundtrip (g : Nat) : bytesToNat (u64ToNeBytes g) = g % 2 ^ 64 := by
  simp [bytesToNat, u64ToNeBytes]
  omega

/-- If `check_set_up` resolves a role id, it sent no reply on the way. -/
theorem check_set_up_resolved_replies (db : RoleDb) (app_role : AppRole) (guild : Nat)
    (fetch : Except DirectoryError (List Role)) (rid : Nat) (sent : List Reply)
    (h : check_set_up db app_role guild fetch = .ok (some rid, sent)) : sent = [] := by
  cases hg : db.get app_role guild with
  | none => simp [check_set_up, hg] at h
  | some name =>
    cases hf : role_by_name fetch name with
    | panic => simp [check_set_up, hg, hf] at h
    | ok o =>
      cases o with
      | none => simp [check_set_up, hg, hf] at h
      | some role => simp [check_set_up, hg, hf] at h; exact h.2

/-- C7: for all (kind, guild, name), a successful `set` on the Config Store
followed immediately by `get` for the same (kind, guild) returns `Some name`. -/
theorem insert_then_get (db : RoleDb) (app_role : AppRole) (guild : Nat) (name : String) :
    ((db.insert app_role guild name).2).get app_role guild = some name := by
  cases app_role <;>
    simp [RoleDb.insert, RoleDb.get, RoleDb.get_db, RoleDb.set_db, SledMap.insert, SledMap.get]

/-- C9: the store keeps one partition per `AppRole` keyed by the guild id's
fixed-width 8-byte encoding: that encoding always has length 8 and is injective
on 64-bit ids, an insert into the `Renamer` partition leaves the whole `Allow`
partition (and every other guild's `Renamer` entry) unchanged, and vice versa. -/
theorem role_db_partitions_and_key_encoding (db : RoleDb) (g g2 : Nat) (v : String)
    (hg : g < 2 ^ 64) (hg2 : g2 < 2 ^ 64) :
    (u64ToNeBytes g).length = 8 ∧
    (u64ToNeBytes g = u64ToNeBytes g2 → g = g2) ∧
    ((db.insert .Renamer g v).2.get .Allow g2 = db.get .Allow g2) ∧
    ((db.insert .Allow g v).2.get .Renamer g2 = db.get .Renamer g2) ∧
    (g ≠ g2 → (db.insert .Renamer g v).2.get .Renamer g2 = db.get .Renamer g2) ∧
    (g ≠ g2 → (db.insert .Allow g v).2.get .Allow g2 = db.get .Allow g2) := by
  have hinj : u64ToNeBytes g = u64ToNeBytes g2 → g = g2 := by
    intro h
    have h2 := congrArg bytesToNat h
    rw [u64ToNeBytes_roundtrip, u64ToNeBytes_roundtrip,
      Nat.mod_eq_of_lt hg, Nat.mod_eq_of_lt hg2] at h2
    exact h2
  refine ⟨rfl, hinj, rfl, rfl, ?_, ?_⟩ <;> intro hne <;>
    simp [RoleDb.insert, RoleDb.get, RoleDb.get_db, RoleDb.set_db, SledMap.insert,
      SledMap.get] <;>
    intro heq <;> exact absurd (hinj heq.symm) hne

/-- Witness for C9 at guild ids 5 and 6. -/
theorem role_db_partitions_and_key_encoding_witness :
    (5 : Nat) < 2 ^ 64 ∧ (6 : Nat) < 2 ^ 64 ∧ (5 : Nat) ≠ 6 ∧
    (u64ToNeBytes 5).length = 8 ∧
    ((emptyDb.insert .Renamer 5 "Mods").2.get .Allow 6 = emptyDb.get .Allow 6) ∧
    ((emptyDb.insert .Renamer 5 "Mods").2.get .Renamer 6 = emptyDb.get .Renamer 6) :=
  have h5 : (5 : Nat) < 2 ^ 64 := by decide
  have h6 : (6 : Nat) < 2 ^ 64 := by decide
  ⟨h5, h6, by decide,
    (role_db_partitions_and_key_encoding emptyDb 5 6 "Mods" h5 h6).1,
    (role_db_partitions_and_key_encoding emptyDb 5 6 "Mods" h5 h6).2.2.1,
    (role_db_partitions_and_key_encoding emptyDb 5 6 "Mods" h5 h6).2.2.2.2.1 (by decide)⟩

/-- C5 (divergence): when the live role list cannot be fetched, the
`role_by_name!` lookup panics (process abort via `.unwrap()`) instead of
failing with a `DirectoryError` propagated as a command failure. -/
theorem role_by_name_panics_on_fetch_failure :
    role_by_name (.error DirectoryError.fetchFailed) "Mods" = .panic := rfl

/-- C3 (divergence): the 17-character nickname `ééééééééééééééééé` trims to 17
characters — inside the claimed [1,32]-character window — yet the code rejects
it, because `str::len()` counts UTF-8 bytes (here 34), not characters. -/
theorem is_valid_nickname_rejects_seventeen_chars :
    (rustTrim (String.mk (List.replicate 17 'é')).data).length = 17 ∧
    1 ≤ (rustTrim (String.mk (List.replicate 17 'é')).data).length ∧
    (rustTrim (String.mk (List.replicate 17 'é')).data).length ≤ 32 ∧
    utf8Len (rustTrim (String.mk (List.replicate 17 'é')).data) = 34 ∧
    is_valid_nickname (String.mk (List.replicate 17 'é')) = false := by decide

/-- C1: the authorization check resolves to exactly one of three outcomes in
order: no stored entry yields no identity (an `ok`, not an error) after one
ephemeral diagnostic naming the admin command; a stored entry with no live
role of that name yields no identity after the distinct "role does not exist
in this server" ephemeral diagnostic; a stored entry whose name matches a
live role yields that role's id with no diagnostic. -/
theorem check_set_up_three_outcomes (db : RoleDb) (app_role : AppRole) (guild : Nat)
    (roles : List Role) :
    (db.get app_role guild = none →
      check_set_up db app_role guild (.ok roles) =
        .ok (none, [⟨app_role.display ++ " role not known for this server" ++ adminHint, true⟩])) ∧
    (∀ name, db.get app_role guild = some name →
      roles.find? (fun role => name == role.name) = none →
      check_set_up db app_role guild (.ok roles) =
        .ok (none,
          [⟨app_role.display ++ " role does not exist in this server" ++ adminHint, true⟩])) ∧
    (∀ name role, db.get app_role guild = some name →
      roles.find? (fun role => name == role.name) = some role →
      check_set_up db app_role guild (.ok roles) = .ok (some role.id, [])) := by
  refine ⟨?_, ?_, ?_⟩
  · intro hg
    simp [check_set_up, hg]
  · intro name hg hf
    simp [check_set_up, hg, role_by_name, hf]
  · intro name role hg hf
    simp [check_set_up, hg, role_by_name, hf]

/-- Witness for C1: all three outcomes at concrete stores and role lists. -/
theorem check_set_up_three_outcomes_witness :
    emptyDb.get .Renamer 5 = none ∧
    check_set_up emptyDb .Renamer 5 (.ok []) =
      .ok (none,
        [⟨AppRole.Renamer.display ++ " role not known for this server" ++ adminHint, true⟩]) ∧
    modsDb.get .Renamer 5 = some "Mods" ∧
    check_set_up modsDb .Renamer 5 (.ok []) =
      .ok (none,
        [⟨AppRole.Renamer.display ++ " role does not exist in this server" ++ adminHint,
          true⟩]) ∧
    check_set_up modsDb .Renamer 5 (.ok [modsRole]) = .ok (some modsRole.id, []) :=
  ⟨by decide,
    (check_set_up_three_outcomes emptyDb .Renamer 5 []).1 (by decide),
    by decide,
    (check_set_up_three_outcomes modsDb .Renamer 5 []).2.1 "Mods" (by decide) (by decide),
    (check_set_up_three_outcomes modsDb .Renamer 5 [modsRole]).2.2 "Mods" modsRole
      (by decide) (by decide)⟩

/-- C2: if the gate resolves a role id but the invoker does not hold that
role, `rename` sends exactly one ephemeral permission-denied reply, performs
no member search and performs no nickname edit. -/
theorem rename_permission_gate (w : RenameWorld) (guild : Nat)
    (invokerName username nickname : String) (rid : Nat) (sent : List Reply)
    (hres : check_set_up w.db .Renamer guild (.ok w.roles) = .ok (some rid, sent))
    (hrole : w.hasRole rid = false) :
    rename w guild invokerName username nickname =
      .ok ⟨[⟨"You do not have permission to use this command.", true⟩], [], []⟩ := by
  have hsent := check_set_up_resolved_replies w.db .Renamer guild (.ok w.roles) rid sent hres
  subst hsent
  simp [rename, hres, hrole]

/-- Witness for C2: a resolved gate, an invoker holding no role. -/
theorem rename_permission_gate_witness :
    check_set_up permWorld.db .Renamer 5 (.ok permWorld.roles) = .ok (some 101, []) ∧
    permWorld.hasRole 101 = false ∧
    rename permWorld 5 "Eve" "bob" "Nick" =
      .ok ⟨[⟨"You do not have permission to use this command.", true⟩], [], []⟩ :=
  ⟨by decide, by decide,
    rename_permission_gate permWorld 5 "Eve" "bob" "Nick" 101 [] (by decide) (by decide)⟩

/-- C4: past the permission and nickname gates, the member search yields
exactly one of three reply classes by match count — zero matches an ephemeral
"found no users" reply, one match the nickname edit plus a broadcast success
reply naming actor and target, two or more matches an ephemeral "found too
many users" reply — and only the one-match case performs an edit. -/
theorem rename_match_count_classes (w : RenameWorld) (guild : Nat)
    (invokerName username nickname : String) (rid : Nat)
    (hres : check_set_up w.db .Renamer guild (.ok w.roles) = .ok (some rid, []))
    (hrole : w.hasRole rid = true)
    (hnick : is_valid_nickname nickname = true) :
    (w.searchResults username = [] →
      rename w guild invokerName username nickname =
        .ok ⟨[⟨"Search for \x27" ++ username ++ "\x27 found no users.", true⟩],
          [], [username]⟩) ∧
    (∀ t, w.searchResults username = [t] →
      rename w guild invokerName username nickname =
        .ok ⟨[⟨invokerName ++ " set " ++ t.userName ++ "\x27s nickname to " ++
            nickname ++ ".", false⟩],
          [⟨t.userName, nickname⟩], [username]⟩) ∧
    (∀ t1 t2 rest, w.searchResults username = t1 :: t2 :: rest →
      rename w guild invokerName username nickname =
        .ok ⟨[⟨"Search for \x27" ++ username ++
            "\x27 found too many users. Specify exactly one user for `username`.", true⟩],
          [], [username]⟩) := by
  refine ⟨?_, ?_, ?_⟩
  · intro hs
    simp [rename, hres, hrole, hnick, hs]
  · intro t hs
    simp [rename, hres, hrole, hnick, hs]
  · intro t1 t2 rest hs
    simp [rename, hres, hrole, hnick, hs]

/-- Witness for C4: the same world searched for zero, one, and two matches. -/
theorem rename_match_count_classes_witness :
    check_set_up okWorld.db .Renamer 5 (.ok okWorld.roles) = .ok (some 101, []) ∧
    okWorld.hasRole 101 = true ∧
    is_valid_nickname "Nick" = true ∧
    okWorld.searchResults "zed" = [] ∧
    rename okWorld 5 "Alice" "zed" "Nick" =
      .ok ⟨[⟨"Search for \x27" ++ "zed" ++ "\x27 found no users.", true⟩], [], ["zed"]⟩ ∧
    okWorld.searchResults "bob" = [⟨"Bob"⟩] ∧
    rename okWorld 5 "Alice" "bob" "Nick" =
      .ok ⟨[⟨"Alice" ++ " set " ++ Member.userName ⟨"Bob"⟩ ++ "\x27s nickname to " ++
          "Nick" ++ ".", false⟩],
        [⟨Member.userName ⟨"Bob"⟩, "Nick"⟩], ["bob"]⟩ ∧
    okWorld.searchResults "many" = [⟨"Alice"⟩, ⟨"Bob"⟩] ∧
    rename okWorld 5 "Alice" "many" "Nick" =
      .ok ⟨[⟨"Search for \x27" ++ "many" ++
          "\x27 found too many users. Specify exactly one user for `username`.", true⟩],
        [], ["many"]⟩ :=
  ⟨by decide, by decide, by decide, by decide,
    (rename_match_count_classes okWorld 5 "Alice" "zed" "Nick" 101
      (by decide) (by decide) (by decide)).1 (by decide),
    by decide,
    (rename_match_count_classes okWorld 5 "Alice" "bob" "Nick" 101
      (by decide) (by decide) (by decide)).2.1 ⟨"Bob"⟩ (by decide),
    by decide,
    (rename_match_count_classes okWorld 5 "Alice" "many" "Nick" 101
      (by decide) (by decide) (by decide)).2.2 ⟨"Alice"⟩ ⟨"Bob"⟩ [] (by decide)⟩

/-- C10: when a rename reaches the mutation step, the nickname applied to the
target is the input string verbatim — trimming is used only inside the
validity check and is never applied to the value written. -/
theorem rename_applies_nickname_verbatim (w : RenameWorld) (guild : Nat)
    (invokerName username nickname : String) (rid : Nat) (t : Member)
    (hres : check_set_up w.db .Renamer guild (.ok w.roles) = .ok (some rid, []))
    (hrole : w.hasRole rid = true)
    (hnick : is_valid_nickname nickname = true)
    (hs : w.searchResults username = [t]) :
    renameEdits (rename w guild invokerName username nickname) = [⟨t.userName, nickname⟩] := by
  simp [rename, hres, hrole, hnick, hs, renameEdits]

/-- Witness for C10: the valid nickname `" Al "` is written with its
surrounding spaces intact. -/
theorem rename_applies_nickname_verbatim_witness :
    is_valid_nickname " Al " = true ∧
    rustTrim (String.data " Al ") = ['A', 'l'] ∧
    renameEdits (rename okWorld 5 "Alice" "bob" " Al ") = [⟨Member.userName ⟨"Bob"⟩, " Al "⟩] :=
  ⟨by decide, by decide,
    rename_applies_nickname_verbatim okWorld 5 "Alice" "bob" " Al " 101 ⟨"Bob"⟩
      (by decide) (by decide) (by decide) (by decide)⟩

/-- C6: the store's `insert` returns the previously stored value (`none` when
no entry existed, `some prev` when one did), so setting the same name twice in
direct succession returns `none` then `some name`; and when the stored value
already equals the desired name, `set_role` reports "no change made" and
leaves the store untouched. -/
theorem set_returns_previous_and_no_change (db : RoleDb) (app_role : AppRole)
    (guild : Nat) (name prev : String) (roles : List Role) (fresh : Nat) :
    (db.get app_role guild = none → (db.insert app_role guild name).1 = none) ∧
    (db.get app_role guild = some prev → (db.insert app_role guild name).1 = some prev) ∧
    (db.get app_role guild = none →
      ((db.insert app_role guild name).2.insert app_role guild name).1 = some name) ∧
    (db.get app_role guild = some name →
      set_role app_role db guild (.ok roles) name fresh =
        .ok ⟨(app_role.display ++ " role is already set to " ++ name ++
            "; no change made.") ++ "\n" ++ (ensure_role roles name fresh).1,
          db, (ensure_role roles name fresh).2.2, (ensure_role roles name fresh).2.1⟩) := by
  refine ⟨?_, ?_, ?_, ?_⟩
  · intro h
    simpa [RoleDb.insert, RoleDb.get, SledMap.insert, SledMap.get] using h
  · intro h
    simpa [RoleDb.insert, RoleDb.get, SledMap.insert, SledMap.get] using h
  · intro _
    cases app_role <;>
      simp [RoleDb.insert, RoleDb.get_db, RoleDb.set_db, SledMap.insert, SledMap.get]
  · intro h
    simp [set_role, h]

/-- Witness for C6: fresh store, then an already-configured store. -/
theorem set_returns_previous_and_no_change_witness :
    emptyDb.get .Renamer 5 = none ∧
    (emptyDb.insert .Renamer 5 "Mods").1 = none ∧
    ((emptyDb.insert .Renamer 5 "Mods").2.insert .Renamer 5 "Mods").1 = some "Mods" ∧
    modsDb.get .Renamer 5 = some "Mods" ∧
    (modsDb.insert .Renamer 5 "Admins").1 = some "Mods" ∧
    set_role .Renamer modsDb 5 (.ok [modsRole]) "Mods" 9 =
      .ok ⟨(AppRole.Renamer.display ++ " role is already set to " ++ "Mods" ++
          "; no change made.") ++ "\n" ++ (ensure_role [modsRole] "Mods" 9).1,
        modsDb, (ensure_role [modsRole] "Mods" 9).2.2,
        (ensure_role [modsRole] "Mods" 9).2.1⟩ :=
  ⟨by decide,
    (set_returns_previous_and_no_change emptyDb .Renamer 5 "Mods" "x" [] 0).1 (by decide),
    (set_returns_previous_and_no_change emptyDb .Renamer 5 "Mods" "x" [] 0).2.2.1 (by decide),
    by decide,
    (set_returns_previous_and_no_change modsDb .Renamer 5 "Admins" "Mods" [] 0).2.1
      (by decide),
    (set_returns_previous_and_no_change modsDb .Renamer 5 "Mods" "Mods" [modsRole] 9).2.2.2
      (by decide)⟩

/-- C8: the ensure step returns the existing live role's id when one with the
exact name exists, otherwise creates exactly one new non-mentionable role with
that exact name; running it twice with the same name yields the same role id
both times and creates no duplicate. -/
theorem ensure_role_idempotent (roles : List Role) (name : String) (f1 f2 : Nat) :
    (ensure_role (ensure_role roles name f1).2.2 name f2).2.1 =
      (ensure_role roles name f1).2.1 ∧
    (ensure_role (ensure_role roles name f1).2.2 name f2).2.2 =
      (ensure_role roles name f1).2.2 ∧
    (roles.find? (fun role => name == role.name) = none →
      (ensure_role roles name f1).2.1 = f1 ∧
      (ensure_role roles name f1).2.2 = roles ++ [⟨f1, name, false⟩]) ∧
    (∀ r, roles.find? (fun role => name == role.name) = some r →
      (ensure_role roles name f1).2.1 = r.id ∧ (ensure_role roles name f1).2.2 = roles) := by
  cases h : roles.find? (fun role => name == role.name) with
  | some r =>
    refine ⟨?_, ?_, ?_, ?_⟩
    · simp [ensure_role, h]
    · simp [ensure_role, h]
    · intro hn
      exact absurd hn (by simp)
    · intro r2 hr2
      injection hr2 with he
      subst he
      simp [ensure_role, h]
  | none =>
    have hsecond : ((roles ++ [(⟨f1, name, false⟩ : Role)]).find?
        (fun role => name == role.name)) = some ⟨f1, name, false⟩ := by
      simp [List.find?_append, h, List.find?_cons]
    refine ⟨?_, ?_, ?_, ?_⟩
    · simp [ensure_role, h, hsecond]
    · simp [ensure_role, h, hsecond]
    · intro _
      simp [ensure_role, h]
    · intro r2 hr2
      exact Option.noConfusion hr2

/-- Witness for C8: creation on an empty role list, reuse on a populated one. -/
theorem ensure_role_idempotent_witness :
    ([] : List Role).find? (fun role => "Mods" == role.name) = none ∧
    (ensure_role ([] : List Role) "Mods" 7).2.1 = 7 ∧
    (ensure_role ([] : List Role) "Mods" 7).2.2 = [] ++ [⟨7, "Mods", false⟩] ∧
    (ensure_role (ensure_role ([] : List Role) "Mods" 7).2.2 "Mods" 8).2.1 =
      (ensure_role ([] : List Role) "Mods" 7).2.1 ∧
    (ensure_role (ensure_role ([] : List Role) "Mods" 7).2.2 "Mods" 8).2.2 =
      (ensure_role ([] : List Role) "Mods" 7).2.2 ∧
    [modsRole].find? (fun role => "Mods" == role.name) = some modsRole ∧
    (ensure_role [modsRole] "Mods" 9).2.1 = modsRole.id :=
  ⟨by decide,
    ((ensure_role_idempotent [] "Mods" 7 8).2.2.1 (by decide)).1,
    ((ensure_role_idempotent [] "Mods" 7 8).2.2.1 (by decide)).2,
    (ensure_role_idempotent [] "Mods" 7 8).1,
    (ensure_role_idempotent [] "Mods" 7 8).2.1,
    by decide,
    ((ensure_role_idempotent [modsRole] "Mods" 9 10).2.2.2 modsRole (by decide)).1⟩
